import Mathlib

/-!
Shallow embedding of `nomad_exporter.go` from samber/prometheus-nomad-exporter.

The Go program scrapes a Nomad health endpoint, decodes a JSON payload into a
`nomadHealth` struct, and republishes the values through prometheus gauges.
Float64 values are modelled as rationals (the program only copies values, it
never computes with them); Go maps keyed by status-code strings are modelled
as association lists with unique keys; the prometheus gauge objects are
modelled as records carrying descriptor data and a current value.
-/

/-- A JSON value, as consumed by Go's `encoding/json` decoder. -/
inductive Json where
  | null : Json
  | bool : Bool → Json
  | num : ℚ → Json
  | str : String → Json
  | arr : List Json → Json
  | obj : List (String × Json) → Json

/-- The `nomadHealth` struct (nomad_exporter.go lines 25-39): the decoded
upstream payload. Go's `map[string]float64` fields are association lists. -/
structure nomadHealth where
  UpTimeSec : ℚ
  StatusCodeCount : List (String × ℚ)
  TotalStatusCodeCount : List (String × ℚ)
  TotalResponseTimeSec : ℚ
  AverageResponseTimeSec : ℚ
deriving DecidableEq

/-- The zero value of `nomadHealth`: what `var data nomadHealth` starts as. -/
def zeroHealth : nomadHealth := ⟨0, [], [], 0, 0⟩

/-- First-match lookup in an association list keyed by strings. -/
def alookup {α : Type} : List (String × α) → String → Option α
  | [], _ => none
  | p :: rest, k => if p.1 = k then some p.2 else alookup rest k

/-- Decoding a JSON value into a Go `float64` field: numbers decode to
themselves, `null` leaves the zero value in place (Go semantics), anything
else is a type error. -/
def decodeNum : Json → Option ℚ
  | .num q => some q
  | .null => some 0
  | _ => none

/-- Store a key/value pair into an association list the way a Go map write
does: overwrite the existing entry if the key is present, append otherwise. -/
def insertQ (acc : List (String × ℚ)) (k : String) (q : ℚ) : List (String × ℚ) :=
  if (alookup acc k).isSome then acc.map (fun p => if p.1 = k then (p.1, q) else p)
  else acc ++ [(k, q)]

/-- Decode the entries of a JSON object into a Go `map[string]float64`,
processing keys in stream order (later duplicates overwrite earlier ones). -/
def decodeCountEntries : List (String × ℚ) → List (String × Json) → Option (List (String × ℚ))
  | acc, [] => some acc
  | acc, p :: rest =>
    match decodeNum p.2 with
    | none => none
    | some q => decodeCountEntries (insertQ acc p.1 q) rest

/-- Decode a JSON value into a Go `map[string]float64`: `null` gives the nil
map, an object decodes entrywise, anything else is a type error. -/
def decodeCountMap : Json → Option (List (String × ℚ))
  | .null => some []
  | .obj kvs => decodeCountEntries [] kvs
  | _ => none

/-- The five recognized JSON field tags of `nomadHealth`. -/
def fieldNames : List String :=
  ["uptime_sec", "status_code_count", "total_status_code_count",
   "total_response_time_sec", "average_response_time_sec"]

/-- Process one top-level key of the payload object, as Go's decoder does:
a recognized tag decodes into its struct field (a type mismatch is an
error), every other key is ignored. -/
def applyField (d : nomadHealth) (k : String) (v : Json) : Option nomadHealth :=
  if k = "uptime_sec" then (decodeNum v).map (fun q => { d with UpTimeSec := q })
  else if k = "status_code_count" then
    (decodeCountMap v).map (fun m => { d with StatusCodeCount := m })
  else if k = "total_status_code_count" then
    (decodeCountMap v).map (fun m => { d with TotalStatusCodeCount := m })
  else if k = "total_response_time_sec" then
    (decodeNum v).map (fun q => { d with TotalResponseTimeSec := q })
  else if k = "average_response_time_sec" then
    (decodeNum v).map (fun q => { d with AverageResponseTimeSec := q })
  else some d

/-- Fold `applyField` over the keys of the payload object in order. -/
def decodeFields : nomadHealth → List (String × Json) → Option nomadHealth
  | d, [] => some d
  | d, p :: rest =>
    match applyField d p.1 p.2 with
    | none => none
    | some d2 => decodeFields d2 rest

/-- Behavior of `decoder.Decode(&data)` for `var data nomadHealth` (lines 152-156):
an object decodes fieldwise starting from the zero value, JSON `null` is a
no-op leaving the zero value, any other payload shape is a decode error. -/
def decodeHealth : Json → Option nomadHealth
  | .obj kvs => decodeFields zeroHealth kvs
  | .null => some zeroHealth
  | _ => none

/-- A prometheus gauge as this program uses it: descriptor data fixed at
construction plus a mutable current value. -/
structure Gauge where
  nspace : String
  name : String
  help : String
  constLabels : List (String × String)
  value : ℚ
deriving DecidableEq

/-- The `newGauge` helper (lines 52-61): builds a gauge in namespace "nomad" with the
given name, help string and labels; a fresh prometheus gauge reads 0. -/
def newGauge (metricName : String) (docString : String)
    (constLabels : List (String × String)) : Gauge :=
  { nspace := "nomad", name := metricName, help := docString,
    constLabels := constLabels, value := 0 }

/-- Setting a gauge: `gauge.Set(v)`. -/
def Gauge.set (g : Gauge) (v : ℚ) : Gauge := { g with value := v }

/-- The gauge created on first sight of a status code in `status_code_count`
(line 170). -/
def mkCurrentGauge (statusCode : String) : Gauge :=
  newGauge "request_count_current" "Number of request handled by Nomad"
    [("statusCode", statusCode)]

/-- The gauge created on first sight of a status code in
`total_status_code_count` (line 178). -/
def mkTotalGauge (statusCode : String) : Gauge :=
  newGauge "request_count_total" "Number of request handled by Nomad"
    [("statusCode", statusCode)]

/-- The process-wide mutable metric state (lines 63-73): four singleton
gauges and the two dynamic gauge maps keyed by status-code string. -/
structure MetricsState where
  nomad_up : Gauge
  metric_uptime : Gauge
  metric_request_response_time_total : Gauge
  metric_request_response_time_avg : Gauge
  metric_request_status_count_current : List (String × Gauge)
  metric_request_status_count_total : List (String × Gauge)
deriving DecidableEq

/-- The state after package initialization (lines 63-77): all singleton
gauges freshly constructed, `nomad_up.Set(0)` applied, both dynamic maps
empty. -/
def initialState : MetricsState :=
  { nomad_up := (newGauge "up" "Is Nomad up ?" []).set 0
  , metric_uptime := newGauge "uptime" "Current Nomad uptime" []
  , metric_request_response_time_total :=
      newGauge "request_response_time_total" "Total response time of Nomad requests" []
  , metric_request_response_time_avg :=
      newGauge "request_response_time_avg" "Average response time of Nomad requests" []
  , metric_request_status_count_current := []
  , metric_request_status_count_total := [] }

/-- Write `m[k].Set(v)`: set the value of the gauge stored at key `k`. -/
def setKey (m : List (String × Gauge)) (k : String) (v : ℚ) : List (String × Gauge) :=
  m.map (fun p => if p.1 = k then (p.1, p.2.set v) else p)

/-- The reset pass over the current-count family (lines 165-167): every
gauge already in the map is set to 0. -/
def resetAll (m : List (String × Gauge)) : List (String × Gauge) :=
  m.map (fun p => (p.1, p.2.set 0))

/-- One iteration of the per-status-code loops (lines 168-173 and 176-181):
lazily create the gauge if the key is unseen, then set its value. -/
def familyStep (mk : String → Gauge) (m : List (String × Gauge))
    (p : String × ℚ) : List (String × Gauge) :=
  setKey (if (alookup m p.1).isSome then m else m ++ [(p.1, mk p.1)]) p.1 p.2

/-- Fold `familyStep` over the snapshot's count map. -/
def updateFamily (mk : String → Gauge) :
    List (String × Gauge) → List (String × ℚ) → List (String × Gauge)
  | m, [] => m
  | m, p :: rest => updateFamily mk (familyStep mk m p) rest

/-- The metric updates of a successful `scrape()` (lines 158-181): set the
up flag to 1, copy the three singleton fields, reset-then-set the
current-count family, set the cumulative family without a reset pass. -/
def applySnapshot (s : MetricsState) (d : nomadHealth) : MetricsState :=
  { nomad_up := s.nomad_up.set 1
  , metric_uptime := s.metric_uptime.set d.UpTimeSec
  , metric_request_response_time_total :=
      s.metric_request_response_time_total.set d.TotalResponseTimeSec
  , metric_request_response_time_avg :=
      s.metric_request_response_time_avg.set d.AverageResponseTimeSec
  , metric_request_status_count_current :=
      updateFamily mkCurrentGauge (resetAll s.metric_request_status_count_current)
        d.StatusCodeCount
  , metric_request_status_count_total :=
      updateFamily mkTotalGauge s.metric_request_status_count_total
        d.TotalStatusCodeCount }

/-- The outcome of the HTTP GET in `scrape()`: either a transport failure or
a response carrying a status code and a body (`none` when the body is not
syntactically valid JSON). -/
inductive HttpResp where
  | transportErr : HttpResp
  | ok : ℤ → Option Json → HttpResp

/-- Decode the response body: syntactically invalid JSON or a type mismatch
is a decode failure. -/
def decodeBody : Option Json → Option nomadHealth
  | none => none
  | some j => decodeHealth j

/-- The three ways `scrape()` fails (lines 142-156). -/
inductive ScrapeErr where
  | transport : ScrapeErr
  | badStatus : ℤ → ScrapeErr
  | decodeFailure : ScrapeErr
deriving DecidableEq

/-- The `scrape()` method (lines 142-184) as a state transition: check transport, then
the 2xx range, then JSON decoding; only after all three checks pass are any
metric values written. -/
def scrapeStep (s : MetricsState) (r : HttpResp) : MetricsState × Option ScrapeErr :=
  match r with
  | .transportErr => (s, some .transport)
  | .ok c b =>
    if ¬(200 ≤ c ∧ c < 300) then (s, some (.badStatus c))
    else
      match decodeBody b with
      | none => (s, some .decodeFailure)
      | some d => (applySnapshot s d, none)

/-- Whether `scrape()` succeeds on a given response. -/
def scrapeOk : HttpResp → Bool
  | .transportErr => false
  | .ok c b => decide (200 ≤ c ∧ c < 300) && (decodeBody b).isSome

/-- The `Collect` method (lines 118-140): run `scrape()`; on failure set the up flag to
0 and emit only it; on success emit the up flag, the three singletons and
every gauge of both dynamic families. Returns the new state and the list of
emitted gauges. -/
def collect (s : MetricsState) (r : HttpResp) : MetricsState × List Gauge :=
  let res := scrapeStep s r
  if res.2.isSome then
    let s2 := { res.1 with nomad_up := res.1.nomad_up.set 0 }
    (s2, [s2.nomad_up])
  else
    (res.1,
      [res.1.nomad_up, res.1.metric_uptime,
       res.1.metric_request_response_time_total,
       res.1.metric_request_response_time_avg]
      ++ res.1.metric_request_status_count_current.map Prod.snd
      ++ res.1.metric_request_status_count_total.map Prod.snd)

/-- The state component of one `Collect` cycle. -/
def collectState (s : MetricsState) (r : HttpResp) : MetricsState := (collect s r).1

/-- The state reached from process start after a sequence of `Collect`
cycles with the given responses. -/
def run (rs : List HttpResp) : MetricsState := rs.foldl collectState initialState

/-- The value shown by the gauge stored at key `k`, if any. -/
def valueAt (m : List (String × Gauge)) (k : String) : Option ℚ :=
  (alookup m k).map Gauge.value

/-! ### Association-list lemmas -/

theorem alookup_append_of_none {α : Type} {m1 : List (String × α)} {k : String}
    (m2 : List (String × α)) (h : alookup m1 k = none) :
    alookup (m1 ++ m2) k = alookup m2 k := by
  induction m1 with
  | nil => rfl
  | cons p rest ih =>
    rw [List.cons_append]
    simp only [alookup] at h ⊢
    by_cases hk : p.1 = k
    · simp [hk] at h
    · simp only [hk, if_false] at h ⊢
      exact ih h

theorem alookup_append_of_isSome {α : Type} {m1 : List (String × α)} {k : String}
    (m2 : List (String × α)) (h : (alookup m1 k).isSome) :
    alookup (m1 ++ m2) k = alookup m1 k := by
  induction m1 with
  | nil => simp [alookup] at h
  | cons p rest ih =>
    rw [List.cons_append]
    simp only [alookup] at h ⊢
    by_cases hk : p.1 = k
    · simp [hk]
    · simp only [hk, if_false] at h ⊢
      exact ih h

theorem alookup_setKey (m : List (String × Gauge)) (k k2 : String) (v : ℚ) :
    alookup (setKey m k v) k2 =
      if k2 = k then (alookup m k).map (fun g => g.set v) else alookup m k2 := by
  induction m with
  | nil => simp [setKey, alookup]
  | cons p rest ih =>
    simp only [setKey, List.map_cons] at ih ⊢
    by_cases hp : p.1 = k
    · by_cases hk2 : k2 = k
      · subst hk2
        simp [alookup, hp, ih]
      · have hpk2 : ¬ p.1 = k2 := by
          intro hc
          exact hk2 (hc.symm.trans hp)
        have hkk2 : ¬ k = k2 := fun hc => hk2 hc.symm
        simp [alookup, hp, hpk2, hk2, hkk2, ih]
    · by_cases hpk2 : p.1 = k2
      · have hk2 : ¬ k2 = k := by
          intro hc
          exact hp (hpk2.trans hc)
        simp [alookup, hp, hpk2, hk2]
      · simp [alookup, hp, hpk2, ih]

theorem alookup_resetAll (m : List (String × Gauge)) (k : String) :
    alookup (resetAll m) k = (alookup m k).map (fun g => g.set 0) := by
  induction m with
  | nil => rfl
  | cons p rest ih =>
    simp only [resetAll, List.map_cons, alookup] at ih ⊢
    by_cases hp : p.1 = k
    · simp [hp]
    · simp only [hp, if_false]
      exact ih

theorem alookup_familyStep_ne (mk : String → Gauge) (m : List (String × Gauge))
    (p : String × ℚ) (k : String) (h : p.1 ≠ k) :
    alookup (familyStep mk m p) k = alookup m k := by
  unfold familyStep
  rw [alookup_setKey]
  have hk : ¬ k = p.1 := fun hc => h hc.symm
  rw [if_neg hk]
  by_cases hs : (alookup m p.1).isSome
  · rw [if_pos hs]
  · rw [if_neg hs]
    by_cases hsk : (alookup m k).isSome
    · exact alookup_append_of_isSome _ hsk
    · rw [alookup_append_of_none _ (Option.not_isSome_iff_eq_none.mp hsk)]
      simp [alookup, hk, h, Option.not_isSome_iff_eq_none.mp hsk]

theorem valueAt_familyStep_self (mk : String → Gauge) (m : List (String × Gauge))
    (k : String) (v : ℚ) :
    valueAt (familyStep mk m (k, v)) k = some v := by
  unfold familyStep valueAt
  rw [alookup_setKey, if_pos rfl]
  by_cases hs : (alookup m k).isSome
  · rw [if_pos hs]
    rcases Option.isSome_iff_exists.mp hs with ⟨g, hg⟩
    simp [hg, Gauge.set]
  · rw [if_neg hs]
    rw [alookup_append_of_none _ (Option.not_isSome_iff_eq_none.mp hs)]
    simp [alookup, Gauge.set]

theorem familyStep_isSome (mk : String → Gauge) (m : List (String × Gauge))
    (p : String × ℚ) (k : String) (h : (alookup m k).isSome) :
    (alookup (familyStep mk m p) k).isSome := by
  by_cases hp : p.1 = k
  · obtain ⟨k0, v0⟩ := p
    have hk : k0 = k := hp
    subst hk
    have hv := valueAt_familyStep_self mk m k0 v0
    unfold valueAt at hv
    rcases Option.map_eq_some'.mp hv with ⟨g, hg, _⟩
    simp [hg]
  · rw [alookup_familyStep_ne mk m p k hp]
    exact h

theorem alookup_updateFamily_absent (mk : String → Gauge) (m : List (String × Gauge))
    (e : List (String × ℚ)) (k : String) (h : alookup e k = none) :
    alookup (updateFamily mk m e) k = alookup m k := by
  induction e generalizing m with
  | nil => rfl
  | cons p rest ih =>
    simp only [alookup] at h
    by_cases hp : p.1 = k
    · simp [hp] at h
    · simp only [hp, if_false] at h
      unfold updateFamily
      rw [ih (familyStep mk m p) h, alookup_familyStep_ne mk m p k hp]

theorem updateFamily_isSome (mk : String → Gauge) (m : List (String × Gauge))
    (e : List (String × ℚ)) (k : String) (h : (alookup m k).isSome) :
    (alookup (updateFamily mk m e) k).isSome := by
  induction e generalizing m with
  | nil => exact h
  | cons p rest ih =>
    unfold updateFamily
    exact ih (familyStep mk m p) (familyStep_isSome mk m p k h)

theorem updateFamily_isSome_of_mem (mk : String → Gauge) (m : List (String × Gauge))
    (e : List (String × ℚ)) (k : String) (h : (alookup e k).isSome) :
    (alookup (updateFamily mk m e) k).isSome := by
  induction e generalizing m with
  | nil => simp [alookup] at h
  | cons p rest ih =>
    unfold updateFamily
    simp only [alookup] at h
    by_cases hp : p.1 = k
    · apply updateFamily_isSome
      obtain ⟨k0, v0⟩ := p
      cases hp
      rcases Option.map_eq_some'.mp (valueAt_familyStep_self mk m k0 v0) with ⟨g, hg, _⟩
      simp [hg]
    · simp only [hp, if_false] at h
      exact ih (familyStep mk m p) h

theorem mem_keys_of_alookup_isSome {α : Type} {m : List (String × α)} {k : String}
    (h : (alookup m k).isSome) : k ∈ m.map Prod.fst := by
  induction m with
  | nil => simp [alookup] at h
  | cons p rest ih =>
    simp only [alookup] at h
    by_cases hp : p.1 = k
    · simp [List.map_cons, hp.symm]
    · simp only [hp, if_false] at h
      simp [List.map_cons, ih h]

theorem valueAt_updateFamily_mem (mk : String → Gauge) (m : List (String × Gauge))
    (e : List (String × ℚ)) (k : String) (v : ℚ)
    (hnd : (e.map Prod.fst).Nodup) (h : alookup e k = some v) :
    valueAt (updateFamily mk m e) k = some v := by
  induction e generalizing m with
  | nil => simp [alookup] at h
  | cons p rest ih =>
    simp only [List.map_cons, List.nodup_cons] at hnd
    simp only [alookup] at h
    by_cases hp : p.1 = k
    · rw [if_pos hp] at h
      obtain ⟨k0, v0⟩ := p
      have hk : k0 = k := hp
      subst hk
      cases h
      unfold updateFamily
      have hrest : alookup rest k0 = none := by
        by_contra hc
        exact hnd.1 (mem_keys_of_alookup_isSome (Option.isSome_iff_ne_none.mpr hc))
      unfold valueAt
      rw [alookup_updateFamily_absent mk _ rest k0 hrest]
      exact valueAt_familyStep_self mk m k0 v0
    · rw [if_neg hp] at h
      unfold updateFamily
      exact ih (familyStep mk m p) hnd.2 h

/-! ### Characterizing `scrapeStep` and `collect` -/

theorem scrapeStep_of_fail (s : MetricsState) (r : HttpResp) (h : scrapeOk r = false) :
    ∃ er, scrapeStep s r = (s, some er) := by
  cases r with
  | transportErr => exact ⟨.transport, rfl⟩
  | ok c b =>
    by_cases hc : 200 ≤ c ∧ c < 300
    · refine ⟨.decodeFailure, ?_⟩
      rcases hdb : decodeBody b with _ | d
      · simp only [scrapeStep]
        rw [if_neg (not_not_intro hc), hdb]
      · exfalso
        simp [scrapeOk, hc, hdb] at h
    · refine ⟨.badStatus c, ?_⟩
      simp only [scrapeStep]
      rw [if_pos hc]

theorem scrapeStep_of_ok (s : MetricsState) (r : HttpResp) (h : scrapeOk r = true) :
    ∃ c b d, r = .ok c b ∧ 200 ≤ c ∧ c < 300 ∧ decodeBody b = some d ∧
      scrapeStep s r = (applySnapshot s d, none) := by
  cases r with
  | transportErr => simp [scrapeOk] at h
  | ok c b =>
    unfold scrapeOk at h
    rw [Bool.and_eq_true, decide_eq_true_eq] at h
    rcases hdb : decodeBody b with _ | d
    · rw [hdb] at h
      simp at h
    · refine ⟨c, b, d, rfl, h.1.1, h.1.2, hdb, ?_⟩
      simp only [scrapeStep]
      rw [if_neg (not_not_intro h.1), hdb]

theorem collect_of_fail (s : MetricsState) (r : HttpResp) (h : scrapeOk r = false) :
    collect s r = ({ s with nomad_up := s.nomad_up.set 0 }, [s.nomad_up.set 0]) := by
  obtain ⟨er, hres⟩ := scrapeStep_of_fail s r h
  simp [collect, hres]

theorem collect_of_ok (s : MetricsState) (r : HttpResp) (h : scrapeOk r = true) :
    ∃ d, decodeBody (match r with | .ok _ b => b | .transportErr => none) = some d ∧
      collect s r = (applySnapshot s d,
        [(applySnapshot s d).nomad_up, (applySnapshot s d).metric_uptime,
         (applySnapshot s d).metric_request_response_time_total,
         (applySnapshot s d).metric_request_response_time_avg]
        ++ (applySnapshot s d).metric_request_status_count_current.map Prod.snd
        ++ (applySnapshot s d).metric_request_status_count_total.map Prod.snd) := by
  obtain ⟨c, b, d, hr, _, _, hdb, hres⟩ := scrapeStep_of_ok s r h
  subst hr
  exact ⟨d, hdb, by simp [collect, hres]⟩

theorem collectState_up (s : MetricsState) (r : HttpResp) :
    (collectState s r).nomad_up.value = if scrapeOk r then 1 else 0 := by
  rcases hok : scrapeOk r with _ | _
  · rw [if_neg (by simp [hok])]
    unfold collectState
    rw [collect_of_fail s r hok]
    rfl
  · rw [if_pos (by simp [hok])]
    obtain ⟨c, b, d, hr, _, _, _, hres⟩ := scrapeStep_of_ok s r hok
    unfold collectState collect
    rw [hres]
    rfl

theorem scrapeStep_badStatus (s : MetricsState) (c : ℤ) (b : Option Json)
    (hc : ¬(200 ≤ c ∧ c < 300)) :
    scrapeStep s (.ok c b) = (s, some (.badStatus c)) := by
  simp only [scrapeStep]
  rw [if_pos hc]

theorem scrapeStep_decodeFailure (s : MetricsState) (c : ℤ) (b : Option Json)
    (hc : 200 ≤ c ∧ c < 300) (hdb : decodeBody b = none) :
    scrapeStep s (.ok c b) = (s, some .decodeFailure) := by
  simp only [scrapeStep]
  rw [if_neg (not_not_intro hc), hdb]

theorem scrapeStep_success (s : MetricsState) (c : ℤ) (b : Option Json) (d : nomadHealth)
    (hc : 200 ≤ c ∧ c < 300) (hdb : decodeBody b = some d) :
    scrapeStep s (.ok c b) = (applySnapshot s d, none) := by
  simp only [scrapeStep]
  rw [if_neg (not_not_intro hc), hdb]

theorem alookup_familyStep_fresh (mk : String → Gauge) (m : List (String × Gauge))
    (k : String) (v : ℚ) (h : alookup m k = none) :
    alookup (familyStep mk m (k, v)) k = some ((mk k).set v) := by
  unfold familyStep
  rw [alookup_setKey, if_pos rfl, if_neg (by simp [h])]
  rw [alookup_append_of_none _ h]
  simp [alookup]

theorem alookup_updateFamily_fresh (mk : String → Gauge) (m : List (String × Gauge))
    (e : List (String × ℚ)) (k : String) (v : ℚ)
    (hnd : (e.map Prod.fst).Nodup) (hm : alookup m k = none)
    (he : alookup e k = some v) :
    alookup (updateFamily mk m e) k = some ((mk k).set v) := by
  induction e generalizing m with
  | nil => simp [alookup] at he
  | cons p rest ih =>
    simp only [List.map_cons, List.nodup_cons] at hnd
    simp only [alookup] at he
    by_cases hp : p.1 = k
    · rw [if_pos hp] at he
      obtain ⟨k0, v0⟩ := p
      have hk : k0 = k := hp
      subst hk
      cases he
      unfold updateFamily
      have hrest : alookup rest k0 = none := by
        by_contra hc
        exact hnd.1 (mem_keys_of_alookup_isSome (Option.isSome_iff_ne_none.mpr hc))
      rw [alookup_updateFamily_absent mk _ rest k0 hrest]
      exact alookup_familyStep_fresh mk m k0 v0 hm
    · rw [if_neg hp] at he
      unfold updateFamily
      exact ih (familyStep mk m p) hnd.2
        (by rw [alookup_familyStep_ne mk m p k hp]; exact hm) he

theorem resetAll_isSome (m : List (String × Gauge)) (k : String)
    (h : (alookup m k).isSome) : (alookup (resetAll m) k).isSome := by
  rw [alookup_resetAll]
  rcases Option.isSome_iff_exists.mp h with ⟨g, hg⟩
  simp [hg]

theorem collectState_preserves_current (s : MetricsState) (r : HttpResp) (k : String)
    (h : (alookup s.metric_request_status_count_current k).isSome) :
    (alookup (collectState s r).metric_request_status_count_current k).isSome := by
  rcases hok : scrapeOk r with _ | _
  · simp only [collectState, collect_of_fail s r hok]
    exact h
  · obtain ⟨c, b, d, hr, _, _, _, hres⟩ := scrapeStep_of_ok s r hok
    simp only [collectState, collect, hres, Option.isSome_none, Bool.false_eq_true,
      if_false]
    simp only [applySnapshot]
    exact updateFamily_isSome _ _ _ k (resetAll_isSome _ k h)

theorem collectState_preserves_total (s : MetricsState) (r : HttpResp) (k : String)
    (h : (alookup s.metric_request_status_count_total k).isSome) :
    (alookup (collectState s r).metric_request_status_count_total k).isSome := by
  rcases hok : scrapeOk r with _ | _
  · simp only [collectState, collect_of_fail s r hok]
    exact h
  · obtain ⟨c, b, d, hr, _, _, _, hres⟩ := scrapeStep_of_ok s r hok
    simp only [collectState, collect, hres, Option.isSome_none, Bool.false_eq_true,
      if_false]
    simp only [applySnapshot]
    exact updateFamily_isSome _ _ _ k h

theorem foldl_preserves_current (more : List HttpResp) (s0 : MetricsState) (k : String)
    (h : (alookup s0.metric_request_status_count_current k).isSome) :
    (alookup (more.foldl collectState s0).metric_request_status_count_current k).isSome := by
  induction more generalizing s0 with
  | nil => exact h
  | cons r rest ih =>
    exact ih (collectState s0 r) (collectState_preserves_current s0 r k h)

theorem foldl_preserves_total (more : List HttpResp) (s0 : MetricsState) (k : String)
    (h : (alookup s0.metric_request_status_count_total k).isSome) :
    (alookup (more.foldl collectState s0).metric_request_status_count_total k).isSome := by
  induction more generalizing s0 with
  | nil => exact h
  | cons r rest ih =>
    exact ih (collectState s0 r) (collectState_preserves_total s0 r k h)

theorem applyField_unknown (d : nomadHealth) (k : String) (v : Json)
    (h : k ∉ fieldNames) : applyField d k v = some d := by
  simp only [fieldNames, List.mem_cons, List.mem_singleton, not_or] at h
  obtain ⟨h1, h2, h3, h4, h5, _⟩ := h
  simp [applyField, h1, h2, h3, h4, h5]

theorem decodeFields_unknown (kvs : List (String × Json)) (d : nomadHealth)
    (h : ∀ p ∈ kvs, p.1 ∉ fieldNames) : decodeFields d kvs = some d := by
  induction kvs with
  | nil => rfl
  | cons p rest ih =>
    unfold decodeFields
    rw [applyField_unknown d p.1 p.2 (h p (List.mem_cons_self p rest))]
    exact ih (fun q hq => h q (List.mem_cons_of_mem p hq))

theorem applyField_frame (d d2 : nomadHealth) (k : String) (v : Json)
    (h : applyField d k v = some d2) :
    (k ≠ "uptime_sec" → d2.UpTimeSec = d.UpTimeSec)
    ∧ (k ≠ "status_code_count" → d2.StatusCodeCount = d.StatusCodeCount)
    ∧ (k ≠ "total_status_code_count" → d2.TotalStatusCodeCount = d.TotalStatusCodeCount)
    ∧ (k ≠ "total_response_time_sec" → d2.TotalResponseTimeSec = d.TotalResponseTimeSec)
    ∧ (k ≠ "average_response_time_sec" → d2.AverageResponseTimeSec = d.AverageResponseTimeSec) := by
  unfold applyField at h
  split_ifs at h with h1 h2 h3 h4 h5
  · rcases Option.map_eq_some'.mp h with ⟨q, _, hd⟩
    subst hd
    exact ⟨fun hne => absurd h1 hne, fun _ => rfl, fun _ => rfl, fun _ => rfl, fun _ => rfl⟩
  · rcases Option.map_eq_some'.mp h with ⟨q, _, hd⟩
    subst hd
    exact ⟨fun _ => rfl, fun hne => absurd h2 hne, fun _ => rfl, fun _ => rfl, fun _ => rfl⟩
  · rcases Option.map_eq_some'.mp h with ⟨q, _, hd⟩
    subst hd
    exact ⟨fun _ => rfl, fun _ => rfl, fun hne => absurd h3 hne, fun _ => rfl, fun _ => rfl⟩
  · rcases Option.map_eq_some'.mp h with ⟨q, _, hd⟩
    subst hd
    exact ⟨fun _ => rfl, fun _ => rfl, fun _ => rfl, fun hne => absurd h4 hne, fun _ => rfl⟩
  · rcases Option.map_eq_some'.mp h with ⟨q, _, hd⟩
    subst hd
    exact ⟨fun _ => rfl, fun _ => rfl, fun _ => rfl, fun _ => rfl, fun hne => absurd h5 hne⟩
  · cases h
    exact ⟨fun _ => rfl, fun _ => rfl, fun _ => rfl, fun _ => rfl, fun _ => rfl⟩

theorem decodeFields_frame (kvs : List (String × Json)) (d0 d2 : nomadHealth)
    (h : decodeFields d0 kvs = some d2) :
    ("uptime_sec" ∉ kvs.map Prod.fst → d2.UpTimeSec = d0.UpTimeSec)
    ∧ ("status_code_count" ∉ kvs.map Prod.fst → d2.StatusCodeCount = d0.StatusCodeCount)
    ∧ ("total_status_code_count" ∉ kvs.map Prod.fst →
        d2.TotalStatusCodeCount = d0.TotalStatusCodeCount)
    ∧ ("total_response_time_sec" ∉ kvs.map Prod.fst →
        d2.TotalResponseTimeSec = d0.TotalResponseTimeSec)
    ∧ ("average_response_time_sec" ∉ kvs.map Prod.fst →
        d2.AverageResponseTimeSec = d0.AverageResponseTimeSec) := by
  induction kvs generalizing d0 with
  | nil =>
    cases h
    exact ⟨fun _ => rfl, fun _ => rfl, fun _ => rfl, fun _ => rfl, fun _ => rfl⟩
  | cons p rest ih =>
    unfold decodeFields at h
    rcases happ : applyField d0 p.1 p.2 with _ | d1
    · rw [happ] at h
      cases h
    · rw [happ] at h
      have hstep := applyField_frame d0 d1 p.1 p.2 happ
      have htail := ih d1 h
      refine ⟨?_, ?_, ?_, ?_, ?_⟩
      · intro hk
        simp only [List.map_cons, List.mem_cons, not_or] at hk
        rw [htail.1 hk.2, hstep.1 (fun hc => hk.1 hc.symm)]
      · intro hk
        simp only [List.map_cons, List.mem_cons, not_or] at hk
        rw [htail.2.1 hk.2, hstep.2.1 (fun hc => hk.1 hc.symm)]
      · intro hk
        simp only [List.map_cons, List.mem_cons, not_or] at hk
        rw [htail.2.2.1 hk.2, hstep.2.2.1 (fun hc => hk.1 hc.symm)]
      · intro hk
        simp only [List.map_cons, List.mem_cons, not_or] at hk
        rw [htail.2.2.2.1 hk.2, hstep.2.2.2.1 (fun hc => hk.1 hc.symm)]
      · intro hk
        simp only [List.map_cons, List.mem_cons, not_or] at hk
        rw [htail.2.2.2.2 hk.2, hstep.2.2.2.2 (fun hc => hk.1 hc.symm)]

/-! ### Claim theorems -/

/-- C2: for every well-formed `HealthSnapshot`, after a successful `scrape()`
the up/down flag reads 1, the uptime instrument equals the snapshot's
`uptime_sec`, the total-response-time instrument equals
`total_response_time_sec`, and the average-response-time instrument equals
`average_response_time_sec`, each exactly as decoded with no
transformation. -/
theorem scrape_success_sets_singletons (s : MetricsState) (c : ℤ) (b : Option Json)
    (d : nomadHealth) (h1 : 200 ≤ c) (h2 : c < 300) (h3 : decodeBody b = some d) :
    (scrapeStep s (.ok c b)).1.nomad_up.value = 1
    ∧ (scrapeStep s (.ok c b)).1.metric_uptime.value = d.UpTimeSec
    ∧ (scrapeStep s (.ok c b)).1.metric_request_response_time_total.value
        = d.TotalResponseTimeSec
    ∧ (scrapeStep s (.ok c b)).1.metric_request_response_time_avg.value
        = d.AverageResponseTimeSec := by
  rw [scrapeStep_success s c b d ⟨h1, h2⟩ h3]
  exact ⟨rfl, rfl, rfl, rfl⟩

/-- Witness for C2 at a concrete snapshot. -/
theorem scrape_success_sets_singletons_witness :
    (scrapeStep initialState (.ok 200 (some (Json.obj
       [("uptime_sec", Json.num 120), ("total_response_time_sec", Json.num 50),
        ("average_response_time_sec", Json.num 5)])))).1.nomad_up.value = 1
    ∧ (scrapeStep initialState (.ok 200 (some (Json.obj
       [("uptime_sec", Json.num 120), ("total_response_time_sec", Json.num 50),
        ("average_response_time_sec", Json.num 5)])))).1.metric_uptime.value
        = (⟨120, [], [], 50, 5⟩ : nomadHealth).UpTimeSec
    ∧ (scrapeStep initialState (.ok 200 (some (Json.obj
       [("uptime_sec", Json.num 120), ("total_response_time_sec", Json.num 50),
        ("average_response_time_sec", Json.num 5)])))).1.metric_request_response_time_total.value
        = (⟨120, [], [], 50, 5⟩ : nomadHealth).TotalResponseTimeSec
    ∧ (scrapeStep initialState (.ok 200 (some (Json.obj
       [("uptime_sec", Json.num 120), ("total_response_time_sec", Json.num 50),
        ("average_response_time_sec", Json.num 5)])))).1.metric_request_response_time_avg.value
        = (⟨120, [], [], 50, 5⟩ : nomadHealth).AverageResponseTimeSec :=
  scrape_success_sets_singletons initialState 200
    (some (Json.obj
       [("uptime_sec", Json.num 120), ("total_response_time_sec", Json.num 50),
        ("average_response_time_sec", Json.num 5)]))
    ⟨120, [], [], 50, 5⟩ (by decide) (by decide) (by decide)

/-- C5: the up/down flag obeys the two-state machine: its initial value at
process start, before any scrape attempt, is 0; after any `Collect` cycle it
is 1 exactly when the scrape succeeded and 0 exactly when it failed, and
these are the only transitions in any reachable execution. -/
theorem up_flag_state_machine :
    (run []).nomad_up.value = 0
    ∧ ∀ (rs : List HttpResp) (r : HttpResp),
        (run (rs ++ [r])).nomad_up.value = if scrapeOk r then 1 else 0 := by
  constructor
  · rfl
  · intro rs r
    unfold run
    rw [List.foldl_append]
    simp only [List.foldl]
    exact collectState_up (List.foldl collectState initialState rs) r

/-- C9 (implicit): in every reachable state the up/down flag holds 0 or 1:
every write site sets it to exactly 0 (initialization, `Collect` failure) or
exactly 1 (scrape success). -/
theorem up_flag_zero_or_one (rs : List HttpResp) :
    (run rs).nomad_up.value = 0 ∨ (run rs).nomad_up.value = 1 := by
  rcases List.eq_nil_or_concat rs with h | ⟨l, r, h⟩
  · subst h
    left
    rfl
  · subst h
    unfold run
    rw [List.concat_eq_append, List.foldl_append]
    simp only [List.foldl]
    rw [collectState_up]
    rcases hok : scrapeOk r with _ | _
    · left
      rw [if_neg (by simp [hok])]
    · right
      rw [if_pos (by simp [hok])]

/-- C10 (implicit): the lazily created current-count and cumulative-count
gauges are constructed with the identical help string "Number of request
handled by Nomad" and the same label key "statusCode", differing only in
metric name (`request_count_current` vs `request_count_total`); and these
are exactly the gauges the scrape loops install for a previously-unseen
status code. -/
theorem dynamic_gauge_descriptors (c : String) :
    (mkCurrentGauge c).help = (mkTotalGauge c).help
    ∧ (mkCurrentGauge c).help = "Number of request handled by Nomad"
    ∧ (mkCurrentGauge c).constLabels = [("statusCode", c)]
    ∧ (mkTotalGauge c).constLabels = [("statusCode", c)]
    ∧ (mkCurrentGauge c).nspace = (mkTotalGauge c).nspace
    ∧ (mkCurrentGauge c).name = "request_count_current"
    ∧ (mkTotalGauge c).name = "request_count_total"
    ∧ ∀ (m : List (String × Gauge)) (e : List (String × ℚ)) (v : ℚ),
        (e.map Prod.fst).Nodup → alookup m c = none → alookup e c = some v →
        alookup (updateFamily mkCurrentGauge m e) c = some ((mkCurrentGauge c).set v)
        ∧ alookup (updateFamily mkTotalGauge m e) c = some ((mkTotalGauge c).set v) := by
  refine ⟨rfl, rfl, rfl, rfl, rfl, rfl, rfl, ?_⟩
  intro m e v hnd hm he
  exact ⟨alookup_updateFamily_fresh mkCurrentGauge m e c v hnd hm he,
    alookup_updateFamily_fresh mkTotalGauge m e c v hnd hm he⟩

/-- Witness for C10: the fresh-code clause at a concrete table and payload. -/
theorem dynamic_gauge_descriptors_witness :
    alookup (updateFamily mkCurrentGauge [] [("200", 4)]) "200"
      = some ((mkCurrentGauge "200").set 4)
    ∧ alookup (updateFamily mkTotalGauge [] [("200", 4)]) "200"
      = some ((mkTotalGauge "200").set 4) :=
  (dynamic_gauge_descriptors "200").2.2.2.2.2.2.2 [] [("200", 4)] 4
    (by decide) (by decide) (by decide)

/-- C1 counterexample: the claim as stated is false. With first-scrape
status-code set S1 = {"200"} and second-scrape set S2 = {"404"} (disjoint),
"200" appears in the first scrape's `total_status_code_count` (value 5), yet
if the second payload's `total_status_code_count` also contains "200" (value
7), the cumulative-count instrument changes from 5 to 7 after the second
scrape. -/
theorem scrape_total_retained_counterexample :
    ¬ (∀ (s : MetricsState) (d1 d2 : nomadHealth) (k : String),
        (alookup d1.StatusCodeCount k).isSome →
        (∀ k2, (alookup d1.StatusCodeCount k2).isSome →
          alookup d2.StatusCodeCount k2 = none) →
        (alookup d1.TotalStatusCodeCount k).isSome →
        (valueAt (applySnapshot (applySnapshot s d1) d2).metric_request_status_count_current k
           = some 0
         ∧ valueAt (applySnapshot (applySnapshot s d1) d2).metric_request_status_count_total k
           = valueAt (applySnapshot s d1).metric_request_status_count_total k)) := by
  intro hclaim
  have hdisj : ∀ k2,
      (alookup (⟨0, [("200", 1)], [("200", 5)], 0, 0⟩ : nomadHealth).StatusCodeCount k2).isSome →
      alookup (⟨0, [("404", 3)], [("200", 7)], 0, 0⟩ : nomadHealth).StatusCodeCount k2 = none := by
    intro k2 h
    by_cases hk : ("200" : String) = k2
    · subst hk
      decide
    · exfalso
      simp [alookup, hk] at h
  have hinst := hclaim initialState ⟨0, [("200", 1)], [("200", 5)], 0, 0⟩
      ⟨0, [("404", 3)], [("200", 7)], 0, 0⟩ "200" (by decide) hdisj (by decide)
  have hne : valueAt (applySnapshot (applySnapshot initialState
        (⟨0, [("200", 1)], [("200", 5)], 0, 0⟩ : nomadHealth))
        (⟨0, [("404", 3)], [("200", 7)], 0, 0⟩ : nomadHealth)).metric_request_status_count_total
        "200"
      ≠ valueAt (applySnapshot initialState
        (⟨0, [("200", 1)], [("200", 5)], 0, 0⟩ : nomadHealth)).metric_request_status_count_total
        "200" := by decide
  exact hne hinst.2

/-- C1 (amended): for consecutive successful scrapes, a status code present
in the first scrape's `status_code_count` and absent from the second's reads
exactly 0 on its current-count instrument after the second scrape; and if it
is moreover absent from the second scrape's `total_status_code_count`, its
cumulative-count instrument is unchanged from its value after the first
scrape (current family is reset-then-set each cycle; cumulative family is
set without a reset pass). -/
theorem scrape_current_zeroed_total_retained (s : MetricsState) (d1 d2 : nomadHealth)
    (k : String) (h1 : (alookup d1.StatusCodeCount k).isSome)
    (h2 : alookup d2.StatusCodeCount k = none) :
    valueAt (applySnapshot (applySnapshot s d1) d2).metric_request_status_count_current k
      = some 0
    ∧ ((alookup d1.TotalStatusCodeCount k).isSome →
       alookup d2.TotalStatusCodeCount k = none →
       valueAt (applySnapshot (applySnapshot s d1) d2).metric_request_status_count_total k
         = valueAt (applySnapshot s d1).metric_request_status_count_total k) := by
  constructor
  · have hpres : (alookup (applySnapshot s d1).metric_request_status_count_current k).isSome := by
      simp only [applySnapshot]
      exact updateFamily_isSome_of_mem mkCurrentGauge _ _ k h1
    show valueAt (updateFamily mkCurrentGauge
      (resetAll (applySnapshot s d1).metric_request_status_count_current)
      d2.StatusCodeCount) k = some 0
    unfold valueAt
    rw [alookup_updateFamily_absent mkCurrentGauge _ _ k h2, alookup_resetAll]
    rcases Option.isSome_iff_exists.mp hpres with ⟨g, hg⟩
    rw [hg]
    rfl
  · intro _ ht2
    show valueAt (updateFamily mkTotalGauge
      (applySnapshot s d1).metric_request_status_count_total
      d2.TotalStatusCodeCount) k = valueAt (applySnapshot s d1).metric_request_status_count_total k
    unfold valueAt
    rw [alookup_updateFamily_absent mkTotalGauge _ _ k ht2]

/-- Witness for C1 (amended) at concrete consecutive snapshots. -/
theorem scrape_current_zeroed_total_retained_witness :
    valueAt (applySnapshot (applySnapshot initialState
        (⟨0, [("200", 1)], [("200", 5)], 0, 0⟩ : nomadHealth))
        (⟨0, [("404", 3)], [("404", 9)], 0, 0⟩ : nomadHealth)).metric_request_status_count_current
        "200" = some 0
    ∧ valueAt (applySnapshot (applySnapshot initialState
        (⟨0, [("200", 1)], [("200", 5)], 0, 0⟩ : nomadHealth))
        (⟨0, [("404", 3)], [("404", 9)], 0, 0⟩ : nomadHealth)).metric_request_status_count_total
        "200"
      = valueAt (applySnapshot initialState
        (⟨0, [("200", 1)], [("200", 5)], 0, 0⟩ : nomadHealth)).metric_request_status_count_total
        "200" := by
  have h := scrape_current_zeroed_total_retained initialState
    ⟨0, [("200", 1)], [("200", 5)], 0, 0⟩ ⟨0, [("404", 3)], [("404", 9)], 0, 0⟩ "200"
    (by decide) (by decide)
  exact ⟨h.1, h.2 (by decide) (by decide)⟩

/-- C3: when `scrape()` fails, `Collect` emits exactly one metric, the
up/down flag set to 0, and every other instrument and both dynamic maps are
unchanged from the pre-call state; when `scrape()` succeeds the flag is set
to 1 and every known instrument (four singletons plus both dynamic families)
is emitted. -/
theorem collect_failure_emits_only_up (s : MetricsState) (r : HttpResp) :
    (scrapeOk r = false →
      collect s r = ({ s with nomad_up := s.nomad_up.set 0 }, [s.nomad_up.set 0]))
    ∧ (scrapeOk r = true →
      (collect s r).1.nomad_up.value = 1
      ∧ (collect s r).2 =
          [(collect s r).1.nomad_up, (collect s r).1.metric_uptime,
           (collect s r).1.metric_request_response_time_total,
           (collect s r).1.metric_request_response_time_avg]
          ++ (collect s r).1.metric_request_status_count_current.map Prod.snd
          ++ (collect s r).1.metric_request_status_count_total.map Prod.snd) := by
  constructor
  · exact collect_of_fail s r
  · intro h
    obtain ⟨d, _, hc⟩ := collect_of_ok s r h
    rw [hc]
    exact ⟨rfl, rfl⟩

/-- Witness for C3: a failing transport response and a succeeding 200
response with an empty JSON object body. -/
theorem collect_failure_emits_only_up_witness :
    collect initialState .transportErr
      = ({ initialState with nomad_up := initialState.nomad_up.set 0 },
         [initialState.nomad_up.set 0])
    ∧ ((collect initialState (.ok 200 (some (Json.obj [])))).1.nomad_up.value = 1
       ∧ (collect initialState (.ok 200 (some (Json.obj [])))).2 =
           [(collect initialState (.ok 200 (some (Json.obj [])))).1.nomad_up,
            (collect initialState (.ok 200 (some (Json.obj [])))).1.metric_uptime,
            (collect initialState (.ok 200 (some (Json.obj [])))).1.metric_request_response_time_total,
            (collect initialState (.ok 200 (some (Json.obj [])))).1.metric_request_response_time_avg]
           ++ (collect initialState
                (.ok 200 (some (Json.obj [])))).1.metric_request_status_count_current.map Prod.snd
           ++ (collect initialState
                (.ok 200 (some (Json.obj [])))).1.metric_request_status_count_total.map Prod.snd) :=
  ⟨(collect_failure_emits_only_up initialState .transportErr).1 rfl,
   (collect_failure_emits_only_up initialState (.ok 200 (some (Json.obj [])))).2 (by decide)⟩

/-- C4: `scrape()` returns an error if and only if the transport fails, the
status code is outside 200-299, or the body fails to decode, checked in this
order; and no metric value is written unless all three checks pass (the
state is unchanged whenever an error is returned). -/
theorem scrape_error_taxonomy (s : MetricsState) (r : HttpResp) :
    ((scrapeStep s r).2 = some ScrapeErr.transport ↔ r = HttpResp.transportErr)
    ∧ (∀ c b, r = HttpResp.ok c b → ¬(200 ≤ c ∧ c < 300) →
        (scrapeStep s r).2 = some (ScrapeErr.badStatus c))
    ∧ (∀ c b, r = HttpResp.ok c b → (200 ≤ c ∧ c < 300) → decodeBody b = none →
        (scrapeStep s r).2 = some ScrapeErr.decodeFailure)
    ∧ ((scrapeStep s r).2 = none ↔
        ∃ c b d, r = HttpResp.ok c b ∧ 200 ≤ c ∧ c < 300 ∧ decodeBody b = some d)
    ∧ ((scrapeStep s r).2.isSome → (scrapeStep s r).1 = s) := by
  refine ⟨?_, ?_, ?_, ?_, ?_⟩
  · cases r with
    | transportErr => simp [scrapeStep]
    | ok c b =>
      constructor
      · intro h
        exfalso
        by_cases hc : 200 ≤ c ∧ c < 300
        · rcases hdb : decodeBody b with _ | d
          · rw [scrapeStep_decodeFailure s c b hc hdb] at h
            simp at h
          · rw [scrapeStep_success s c b d hc hdb] at h
            simp at h
        · rw [scrapeStep_badStatus s c b hc] at h
          simp at h
      · intro h
        exact HttpResp.noConfusion h
  · intro c b hr hc
    subst hr
    rw [scrapeStep_badStatus s c b hc]
  · intro c b hr hc hdb
    subst hr
    rw [scrapeStep_decodeFailure s c b hc hdb]
  · constructor
    · intro h
      cases r with
      | transportErr => simp [scrapeStep] at h
      | ok c b =>
        by_cases hc : 200 ≤ c ∧ c < 300
        · rcases hdb : decodeBody b with _ | d
          · rw [scrapeStep_decodeFailure s c b hc hdb] at h
            simp at h
          · exact ⟨c, b, d, rfl, hc.1, hc.2, hdb⟩
        · rw [scrapeStep_badStatus s c b hc] at h
          simp at h
    · rintro ⟨c, b, d, rfl, hc1, hc2, hdb⟩
      rw [scrapeStep_success s c b d ⟨hc1, hc2⟩ hdb]
  · intro h
    rcases hok : scrapeOk r with _ | _
    · obtain ⟨er, hres⟩ := scrapeStep_of_fail s r hok
      rw [hres]
    · obtain ⟨c, b, d, hr, _, _, _, hres⟩ := scrapeStep_of_ok s r hok
      rw [hres] at h
      simp at h

/-- Witness for C4: a 503 response yields a bad-status error without
touching the state, and an unparseable body behind a 200 yields a decode
error. -/
theorem scrape_error_taxonomy_witness :
    (scrapeStep initialState (.ok 503 none)).2 = some (ScrapeErr.badStatus 503)
    ∧ (scrapeStep initialState (.ok 200 none)).2 = some ScrapeErr.decodeFailure
    ∧ (scrapeStep initialState (.ok 503 none)).1 = initialState :=
  ⟨(scrape_error_taxonomy initialState (.ok 503 none)).2.1 503 none rfl (by decide),
   (scrape_error_taxonomy initialState (.ok 200 none)).2.2.1 200 none rfl (by decide) rfl,
   (scrape_error_taxonomy initialState (.ok 503 none)).2.2.2.2 (by decide)⟩

/-- C6: scraping the same snapshot twice in a row is idempotent: for every
snapshot (Go map keys are unique) and every starting state, all instrument
values after the second scrape equal the values after the first. -/
theorem scrape_idempotent (s : MetricsState) (d : nomadHealth)
    (h1 : (d.StatusCodeCount.map Prod.fst).Nodup)
    (h2 : (d.TotalStatusCodeCount.map Prod.fst).Nodup) :
    (applySnapshot (applySnapshot s d) d).nomad_up.value
      = (applySnapshot s d).nomad_up.value
    ∧ (applySnapshot (applySnapshot s d) d).metric_uptime.value
      = (applySnapshot s d).metric_uptime.value
    ∧ (applySnapshot (applySnapshot s d) d).metric_request_response_time_total.value
      = (applySnapshot s d).metric_request_response_time_total.value
    ∧ (applySnapshot (applySnapshot s d) d).metric_request_response_time_avg.value
      = (applySnapshot s d).metric_request_response_time_avg.value
    ∧ (∀ k, valueAt (applySnapshot (applySnapshot s d) d).metric_request_status_count_current k
        = valueAt (applySnapshot s d).metric_request_status_count_current k)
    ∧ (∀ k, valueAt (applySnapshot (applySnapshot s d) d).metric_request_status_count_total k
        = valueAt (applySnapshot s d).metric_request_status_count_total k) := by
  refine ⟨rfl, rfl, rfl, rfl, ?_, ?_⟩
  · intro k
    rcases he : alookup d.StatusCodeCount k with _ | v
    · have hm1 : alookup (applySnapshot s d).metric_request_status_count_current k
          = (alookup s.metric_request_status_count_current k).map (fun g => g.set 0) := by
        show alookup (updateFamily mkCurrentGauge
          (resetAll s.metric_request_status_count_current) d.StatusCodeCount) k = _
        rw [alookup_updateFamily_absent mkCurrentGauge _ _ k he, alookup_resetAll]
      show valueAt (updateFamily mkCurrentGauge
        (resetAll (applySnapshot s d).metric_request_status_count_current)
        d.StatusCodeCount) k = valueAt (applySnapshot s d).metric_request_status_count_current k
      unfold valueAt
      rw [alookup_updateFamily_absent mkCurrentGauge _ _ k he, alookup_resetAll, hm1]
      rcases h0 : alookup s.metric_request_status_count_current k with _ | g <;> rfl
    · have ha := valueAt_updateFamily_mem mkCurrentGauge
        (resetAll (applySnapshot s d).metric_request_status_count_current)
        d.StatusCodeCount k v h1 he
      have hb := valueAt_updateFamily_mem mkCurrentGauge
        (resetAll s.metric_request_status_count_current) d.StatusCodeCount k v h1 he
      exact ha.trans hb.symm
  · intro k
    rcases he : alookup d.TotalStatusCodeCount k with _ | v
    · show valueAt (updateFamily mkTotalGauge
        (applySnapshot s d).metric_request_status_count_total
        d.TotalStatusCodeCount) k = valueAt (applySnapshot s d).metric_request_status_count_total k
      unfold valueAt
      rw [alookup_updateFamily_absent mkTotalGauge _ _ k he]
    · have ha := valueAt_updateFamily_mem mkTotalGauge
        (applySnapshot s d).metric_request_status_count_total d.TotalStatusCodeCount k v h2 he
      have hb := valueAt_updateFamily_mem mkTotalGauge
        s.metric_request_status_count_total d.TotalStatusCodeCount k v h2 he
      exact ha.trans hb.symm

/-- Witness for C6 at a concrete snapshot and status code. -/
theorem scrape_idempotent_witness :
    (applySnapshot (applySnapshot initialState
        (⟨1, [("200", 2)], [("200", 3)], 4, 5⟩ : nomadHealth))
        (⟨1, [("200", 2)], [("200", 3)], 4, 5⟩ : nomadHealth)).nomad_up.value
      = (applySnapshot initialState
        (⟨1, [("200", 2)], [("200", 3)], 4, 5⟩ : nomadHealth)).nomad_up.value
    ∧ (applySnapshot (applySnapshot initialState
        (⟨1, [("200", 2)], [("200", 3)], 4, 5⟩ : nomadHealth))
        (⟨1, [("200", 2)], [("200", 3)], 4, 5⟩ : nomadHealth)).metric_uptime.value
      = (applySnapshot initialState
        (⟨1, [("200", 2)], [("200", 3)], 4, 5⟩ : nomadHealth)).metric_uptime.value
    ∧ valueAt (applySnapshot (applySnapshot initialState
        (⟨1, [("200", 2)], [("200", 3)], 4, 5⟩ : nomadHealth))
        (⟨1, [("200", 2)], [("200", 3)], 4, 5⟩ : nomadHealth)).metric_request_status_count_current
        "200"
      = valueAt (applySnapshot initialState
        (⟨1, [("200", 2)], [("200", 3)], 4, 5⟩ : nomadHealth)).metric_request_status_count_current
        "200"
    ∧ valueAt (applySnapshot (applySnapshot initialState
        (⟨1, [("200", 2)], [("200", 3)], 4, 5⟩ : nomadHealth))
        (⟨1, [("200", 2)], [("200", 3)], 4, 5⟩ : nomadHealth)).metric_request_status_count_total
        "200"
      = valueAt (applySnapshot initialState
        (⟨1, [("200", 2)], [("200", 3)], 4, 5⟩ : nomadHealth)).metric_request_status_count_total
        "200" := by
  have h := scrape_idempotent initialState ⟨1, [("200", 2)], [("200", 3)], 4, 5⟩
    (by decide) (by decide)
  exact ⟨h.1, h.2.1, h.2.2.2.2.1 "200", h.2.2.2.2.2 "200"⟩

/-- C7 counterexample: the claim as stated says an entry of either dynamic
mapping persists at value 0 once its code disappears from the payload, but
the cumulative-count family has no reset pass: an entry set to 5 by one
scrape still reads 5, not 0, after a later successful scrape whose payload
lacks the code. -/
theorem family_entries_persist_counterexample :
    ¬ (∀ (rs : List HttpResp) (c : ℤ) (b : Option Json) (d : nomadHealth) (k : String),
        decodeBody b = some d →
        scrapeOk (.ok c b) = true →
        (alookup (run rs).metric_request_status_count_total k).isSome →
        alookup d.TotalStatusCodeCount k = none →
        valueAt (run (rs ++ [.ok c b])).metric_request_status_count_total k = some 0) := by
  intro hclaim
  have hinst := hclaim
    [.ok 200 (some (Json.obj [("total_status_code_count", Json.obj [("200", Json.num 5)])]))]
    200 (some (Json.obj [])) zeroHealth "200"
    (by decide) (by decide) (by decide) (by decide)
  revert hinst
  decide

/-- C7 (amended): once a status-code key is present in either dynamic
mapping it remains present after every later `Collect` cycle; when a
successful scrape's payload omits the code, its current-count instrument is
reset to 0 while its cumulative-count instrument retains its previous value
unchanged. -/
theorem family_entries_persist (rs more : List HttpResp) (s : MetricsState)
    (d : nomadHealth) (k : String) :
    ((alookup (run rs).metric_request_status_count_current k).isSome →
      (alookup (run (rs ++ more)).metric_request_status_count_current k).isSome)
    ∧ ((alookup (run rs).metric_request_status_count_total k).isSome →
      (alookup (run (rs ++ more)).metric_request_status_count_total k).isSome)
    ∧ (alookup d.StatusCodeCount k = none →
      (alookup s.metric_request_status_count_current k).isSome →
      valueAt (applySnapshot s d).metric_request_status_count_current k = some 0)
    ∧ (alookup d.TotalStatusCodeCount k = none →
      valueAt (applySnapshot s d).metric_request_status_count_total k
        = valueAt s.metric_request_status_count_total k) := by
  refine ⟨?_, ?_, ?_, ?_⟩
  · intro h
    unfold run at h ⊢
    rw [List.foldl_append]
    exact foldl_preserves_current more _ k h
  · intro h
    unfold run at h ⊢
    rw [List.foldl_append]
    exact foldl_preserves_total more _ k h
  · intro he hs
    show valueAt (updateFamily mkCurrentGauge
      (resetAll s.metric_request_status_count_current) d.StatusCodeCount) k = some 0
    unfold valueAt
    rw [alookup_updateFamily_absent mkCurrentGauge _ _ k he, alookup_resetAll]
    rcases Option.isSome_iff_exists.mp hs with ⟨g, hg⟩
    rw [hg]
    rfl
  · intro he
    show valueAt (updateFamily mkTotalGauge
      s.metric_request_status_count_total d.TotalStatusCodeCount) k
      = valueAt s.metric_request_status_count_total k
    unfold valueAt
    rw [alookup_updateFamily_absent mkTotalGauge _ _ k he]

/-- Witness for C7 (amended) on a concrete two-scrape trace where the code
"200" disappears from the second payload. -/
theorem family_entries_persist_witness :
    ((alookup (run (([.ok 200 (some (Json.obj
        [("status_code_count", Json.obj [("200", Json.num 2)]),
         ("total_status_code_count", Json.obj [("200", Json.num 5)])]))])
        ++ [.ok 200 (some (Json.obj []))])).metric_request_status_count_current
        "200").isSome)
    ∧ ((alookup (run (([.ok 200 (some (Json.obj
        [("status_code_count", Json.obj [("200", Json.num 2)]),
         ("total_status_code_count", Json.obj [("200", Json.num 5)])]))])
        ++ [.ok 200 (some (Json.obj []))])).metric_request_status_count_total
        "200").isSome)
    ∧ valueAt (applySnapshot (run [.ok 200 (some (Json.obj
        [("status_code_count", Json.obj [("200", Json.num 2)]),
         ("total_status_code_count", Json.obj [("200", Json.num 5)])]))])
        zeroHealth).metric_request_status_count_current "200" = some 0
    ∧ valueAt (applySnapshot (run [.ok 200 (some (Json.obj
        [("status_code_count", Json.obj [("200", Json.num 2)]),
         ("total_status_code_count", Json.obj [("200", Json.num 5)])]))])
        zeroHealth).metric_request_status_count_total "200"
      = valueAt (run [.ok 200 (some (Json.obj
        [("status_code_count", Json.obj [("200", Json.num 2)]),
         ("total_status_code_count", Json.obj [("200", Json.num 5)])]))]
        ).metric_request_status_count_total "200" := by
  have h := family_entries_persist
    [.ok 200 (some (Json.obj
        [("status_code_count", Json.obj [("200", Json.num 2)]),
         ("total_status_code_count", Json.obj [("200", Json.num 5)])]))]
    [.ok 200 (some (Json.obj []))]
    (run [.ok 200 (some (Json.obj
        [("status_code_count", Json.obj [("200", Json.num 2)]),
         ("total_status_code_count", Json.obj [("200", Json.num 5)])]))])
    zeroHealth "200"
  exact ⟨h.1 (by decide), h.2.1 (by decide), h.2.2.1 (by decide) (by decide),
    h.2.2.2 (by decide)⟩

/-- C8: decoding the upstream JSON body requires no field: each of the five
recognized top-level fields that is absent decodes to its zero value, and
any unrecognized top-level field is ignored without causing a decode
failure. -/
theorem decode_no_required_fields (kvs : List (String × Json)) :
    ((∀ p ∈ kvs, p.1 ∉ fieldNames) → decodeHealth (Json.obj kvs) = some zeroHealth)
    ∧ ∀ d, decodeHealth (Json.obj kvs) = some d →
        ("uptime_sec" ∉ kvs.map Prod.fst → d.UpTimeSec = 0)
        ∧ ("status_code_count" ∉ kvs.map Prod.fst → d.StatusCodeCount = [])
        ∧ ("total_status_code_count" ∉ kvs.map Prod.fst → d.TotalStatusCodeCount = [])
        ∧ ("total_response_time_sec" ∉ kvs.map Prod.fst → d.TotalResponseTimeSec = 0)
        ∧ ("average_response_time_sec" ∉ kvs.map Prod.fst → d.AverageResponseTimeSec = 0) := by
  constructor
  · intro h
    show decodeFields zeroHealth kvs = some zeroHealth
    exact decodeFields_unknown kvs zeroHealth h
  · intro d h
    exact decodeFields_frame kvs zeroHealth d h

/-- Witness for C8: a payload holding only unrecognized fields decodes
successfully to the zero snapshot. -/
theorem decode_no_required_fields_witness :
    decodeHealth (Json.obj [("pid", Json.num 42), ("uptime", Json.str "118h")])
      = some zeroHealth
    ∧ (zeroHealth.UpTimeSec = 0 ∧ zeroHealth.StatusCodeCount = []) := by
  have h := decode_no_required_fields [("pid", Json.num 42), ("uptime", Json.str "118h")]
  have h1 := h.1 (by decide)
  have h2 := h.2 zeroHealth h1
  exact ⟨h1, h2.1 (by decide), h2.2.1 (by decide)⟩
